import Mathlib

set_option maxHeartbeats 1000000
set_option maxRecDepth 4000

/-!
Verification of the Waterguard Linkbox integration core: a shallow
embedding of the hub response parser (`hub.py`), the valve-count
remapping, the entity cache, the state machine, the wireless discovery
scan and the polling coordinator (`coordinator.py`), with theorems
checking the specification claims.  Network round trips are modelled as
oracle parameters (the parsed result the read would yield); byte strings
are modelled as `List ℕ` of byte values; Python floats are modelled as
exact rationals, with IEEE-754 binary32 decoding made explicit.
-/

/-- Result of decoding a 4-byte IEEE-754 binary32 value: not-a-number,
a signed infinity, or a finite rational value. -/
inductive F32 where
  | nan : F32
  | inf : Bool → F32
  | val : ℚ → F32
deriving DecidableEq

/-- Decode a big-endian IEEE-754 binary32 float from four bytes, as
`struct.unpack(">f", ...)` does on a 4-byte buffer.  The two IEEE zeros
both map to the rational 0, which is observationally faithful for every
comparison the parser performs. -/
def decodeFloat32 (b0 b1 b2 b3 : ℕ) : F32 :=
  let bits := (b0 % 256) * 16777216 + (b1 % 256) * 65536 + (b2 % 256) * 256 + b3 % 256
  let sign := bits / 2147483648
  let expo := bits / 8388608 % 256
  let frac := bits % 8388608
  if expo = 255 then
    if frac = 0 then F32.inf (sign = 1) else F32.nan
  else
    let mag : ℚ :=
      if expo = 0 then (frac : ℚ) * 2 / 2 ^ 150
      else ((8388608 + frac : ℕ) : ℚ) * 2 ^ expo / 2 ^ 150
    if sign = 1 then F32.val (-mag) else F32.val mag

/-- The 23-byte water-sensor response shape that
`_parse_wireless_sensor_response` special-cases before the standard
wireless float format (header `81 0a 00 17`, bytes 4-8 equal to
`01 00 30 01`, bytes 16-19 equal to `3e 44 3f`). -/
def isWaterSensorShape (data : List ℕ) : Bool :=
  decide (data.length = 23) && decide (data.take 4 = [0x81, 0x0a, 0x00, 0x17])
    && decide ((data.drop 4).take 4 = [0x01, 0x00, 0x30, 0x01])
    && decide ((data.drop 16).take 3 = [0x3e, 0x44, 0x3f])

/-- Embedding of `WaterguardLinkboxHub._parse_wireless_sensor_response`.
In the water-sensor branch the inner `len(data) >= 20` test is implied
by the length-23 shape check, so the "could not extract" fallback is
unreachable and the branch reduces to the byte-19 dispatch. -/
def parse_wireless_sensor_response (data : List ℕ) (sensorKey : String) : Option ℚ :=
  if isWaterSensorShape data then
    let valueByte := data.getD 19 0
    if valueByte = 0x00 then some 0
    else if valueByte = 0x80 then some 1
    else some 0
  else if data.length < 22 then none
  else if ¬((data.drop 16).take 2 = [0x3e, 0x44]) then none
  else
    match decodeFloat32 (data.getD 18 0) (data.getD 19 0) (data.getD 20 0) (data.getD 21 0) with
    | F32.nan => none
    | F32.inf _ => none
    | F32.val v =>
      if sensorKey = "leak1" ∨ sensorKey = "leak2" then
        if v = 1 then some 1
        else if v = 0 then some 0
        else some 0
      else if sensorKey = "temperature" then
        if -50 ≤ v ∧ v ≤ 100 then some v else none
      else if sensorKey = "humidity" then
        if 0 ≤ v ∧ v ≤ 150 then some v else none
      else if sensorKey = "battery_voltage" then
        if 3 / 2 ≤ v ∧ v ≤ 4 then some v else none
      else some v

/-- Embedding of `WaterguardLinkboxHub._is_wireless_sensor_response`. -/
def is_wireless_sensor_response (data : List ℕ) (objectType : Option ℤ) : Bool :=
  decide (objectType = some 0) && decide (22 ≤ data.length)
    && decide (data.take 4 = [0x81, 0x0a, 0x00, 0x17])
    && decide ((data.drop 16).take 2 = [0x3e, 0x44])

/-- Embedding of `WaterguardLinkboxHub._apply_multi_state_mapping`. -/
def apply_multi_state_mapping (v : ℚ) (objectType : Option ℤ) : ℚ :=
  if objectType = some 13 then
    if v = 319 ∨ v = 1087 then v
    else if 0 ≤ v ∧ v ≤ 10 then v
    else v
  else if objectType = some 14 then
    if v = 319 then 1
    else if 0 ≤ v ∧ v ≤ 10 then v
    else 1
  else v

/-- Embedding of `WaterguardLinkboxHub._parse_wired_sensor_value`: the
first-match cascade over the enumerated (`0x91`), unsigned (`0x21`),
boolean (`0x10`) and real (`0x44`) tags, including fall-through when a
tag byte is found too close to the end of the frame. -/
def parse_wired_sensor_value (data : List ℕ) (objectType : Option ℤ)
    (expectedRange : Option (ℚ × ℚ)) : Option ℚ :=
  let enumRes : Option ℚ :=
    match data.findIdx? (fun b => b == 0x91) with
    | some i =>
      if i + 1 < data.length then
        some (apply_multi_state_mapping ((data.getD (i + 1) 0 : ℕ) : ℚ) objectType)
      else none
    | none => none
  match enumRes with
  | some r => some r
  | none =>
    let uintRes : Option ℚ :=
      match data.findIdx? (fun b => b == 0x21) with
      | some i =>
        if i + 1 < data.length then
          let singleByte := data.getD (i + 1) 0
          if i + 3 ≤ data.length then
            let twoByte := (data.getD (i + 1) 0) <<< 8 ||| data.getD (i + 2) 0
            if twoByte = 319 ∨ twoByte = 1087 then
              some (apply_multi_state_mapping ((twoByte : ℕ) : ℚ) objectType)
            else
              some (apply_multi_state_mapping ((singleByte : ℕ) : ℚ) objectType)
          else
            some (apply_multi_state_mapping ((singleByte : ℕ) : ℚ) objectType)
        else none
      | none => none
    match uintRes with
    | some r => some r
    | none =>
      let boolRes : Option ℚ :=
        match data.findIdx? (fun b => b == 0x10) with
        | some i =>
          if i + 1 < data.length then some ((data.getD (i + 1) 0 : ℕ) : ℚ)
          else none
        | none => none
      match boolRes with
      | some r => some r
      | none =>
        match data.findIdx? (fun b => b == 0x44) with
        | some i =>
          if i + 5 ≤ data.length then
            match decodeFloat32 (data.getD (i + 1) 0) (data.getD (i + 2) 0)
                (data.getD (i + 3) 0) (data.getD (i + 4) 0) with
            | F32.nan => none
            | F32.inf _ => none
            | F32.val v =>
              match expectedRange with
              | some (lo, hi) => if lo ≤ v ∧ v ≤ hi then some v else none
              | none => if -100 ≤ v ∧ v ≤ 10000 then some v else none
          else none
        | none => none

/-- Embedding of `WaterguardLinkboxHub._parse_value`: the length guard,
the 1024-byte truncation, the error-bit check with its byte-3 `0x17`
exception, and the wireless/wired routing. -/
def parse_value (data : List ℕ) (objectType : Option ℤ)
    (expectedRange : Option (ℚ × ℚ)) (sensorKey : String) : Option ℚ :=
  if data.length < 4 then none
  else
    let d := if 1024 < data.length then data.take 1024 else data
    if (d.getD 3 0) &&& 2 ≠ 0 ∧ d.getD 3 0 ≠ 0x17 then none
    else if is_wireless_sensor_response d objectType then
      parse_wireless_sensor_response d sensorKey
    else
      parse_wired_sensor_value d objectType expectedRange

/-- Python `round` on an exact rational: round to nearest, ties to even. -/
def pyRound (x : ℚ) : ℤ :=
  let fl := ⌊x⌋
  let fr := x - fl
  if fr < 1 / 2 then fl
  else if 1 / 2 < fr then fl + 1
  else if fl % 2 = 0 then fl else fl + 1

/-- Embedding of `WaterguardLinkboxHub.calculate_battery_percentage`
for a non-null voltage. -/
def calculate_battery_percentage (voltage : ℚ) : ℤ :=
  if 33 / 10 ≤ voltage then 100
  else if voltage ≤ 11 / 5 then 15
  else pyRound (15 + ((voltage - 11 / 5) / (33 / 10 - 11 / 5)) * 85)

/-- The water portion of one cycle's data (`read_water_status` output),
each reading `None` on a missing response or failed parse. -/
structure WaterData where
  alarm : Option ℚ
  leak1 : Option ℚ
deriving DecidableEq

/-- The valve portion of one cycle's data (`read_valve_status` output). -/
structure ValveData where
  num_valves : Option ℤ
  control : Option ℚ
  valve_status1 : Option ℚ
  valve_status2 : Option ℚ
deriving DecidableEq

/-- One refresh cycle's data dictionary as seen by the coordinator:
water, valve and the wireless key/value map. -/
structure CycleData where
  water : WaterData
  valve : ValveData
  wireless : List (String × Option ℚ)
deriving DecidableEq

/-- Embedding of `WaterguardDataUpdateCoordinator._determine_alarm_state`. -/
def determine_alarm_state (d : CycleData) : Bool :=
  let waterAlarm := match d.water.alarm with
    | some v => decide (1 ≤ v)
    | none => false
  let wiredLeak := match d.water.leak1 with
    | some v => decide (1 ≤ v)
    | none => false
  let wirelessLeak := d.wireless.any fun p =>
    p.1.startsWith "leak" && (match p.2 with
      | some v => decide (1 ≤ v)
      | none => false)
  let valveSystemDisconnected := decide (d.valve.num_valves = some 319)
  let valve1Disconnected :=
    decide (d.valve.valve_status1 = some 4) || decide (d.valve.valve_status1 = some 1087)
  let valve2Disconnected :=
    (match d.valve.num_valves with
      | some n => decide (n ≠ 0) && decide (2 ≤ n)
      | none => false)
      && (decide (d.valve.valve_status2 = some 4) || decide (d.valve.valve_status2 = some 1087))
  let lowBattery := match d.wireless.lookup "battery_voltage" with
    | some (some v) => decide (v < 5 / 2)
    | some none => false
    | none => false
  waterAlarm || wiredLeak || wirelessLeak
    || valveSystemDisconnected || valve1Disconnected || valve2Disconnected
    || lowBattery

/-- The raw-to-interpreted valve-count remap performed inside
`WaterguardLinkboxHub.read_valve_status` (2 means one valve, 3 means two
valves, 319 means the whole system is disconnected). -/
def hubInterpretNumValves (raw : ℤ) : ℤ :=
  if raw = 319 then 0
  else if raw = 2 then 1
  else if raw = 3 then 2
  else raw

/-- Embedding of `WaterguardLinkboxHub.read_valve_status`.  The parsed
raw valve count (already `int()`-converted, `None` when the read or the
parse failed) and the control/per-valve status reads are oracle
parameters for the network round trips; the per-valve status objects are
read only when the interpreted count implies they exist. -/
def read_valve_status (rawNumValves : Option ℤ)
    (controlRead valve1Read valve2Read : Option ℚ) : ValveData :=
  let numValves : ℤ := match rawNumValves with
    | some raw => hubInterpretNumValves raw
    | none => 0
  { num_valves := rawNumValves.map hubInterpretNumValves
    control := controlRead
    valve_status1 := if 1 ≤ numValves then valve1Read else none
    valve_status2 := if 2 ≤ numValves then valve2Read else none }

/-- The coordinator's own `num_valves` remap block inside
`_async_update_data` (applied to the value the hub layer returned). -/
def coordRemapValve (v : ValveData) : ValveData :=
  { v with num_valves := v.num_valves.map fun raw =>
      if raw = 2 then 1 else if raw = 3 then 2 else if raw = 319 then 0 else raw }

/-- The alarm evaluation a refresh cycle performs, composed from the raw
hub-level inputs: hub valve read, then the coordinator's remap block,
then `_determine_alarm_state` on the resulting cycle data. -/
def refreshCycleAlarm (w : WaterData) (rawNumValves : Option ℤ)
    (controlRead valve1Read valve2Read : Option ℚ)
    (wireless : List (String × Option ℚ)) : Bool :=
  determine_alarm_state
    { water := w
      valve := coordRemapValve (read_valve_status rawNumValves controlRead valve1Read valve2Read)
      wireless := wireless }

/-- The coordinator attributes `_check_alarm_conditions` reads when
selecting the next update interval (all durations in seconds). -/
structure CoordIntervalState where
  scanInterval : ℚ
  fastPollInterval : ℚ
  lastUpdateSeconds : Option ℚ
  updateInterval : Option ℚ
deriving DecidableEq

/-- The `max(base, processing_guard, 1.0)` safe interval computed by
`_check_alarm_conditions` (`self._last_update_seconds or 0.0`). -/
def safeIntervalSeconds (cs : CoordIntervalState) (alarmActive : Bool) : ℚ :=
  let base := if alarmActive then cs.fastPollInterval else cs.scanInterval
  let processingGuard := (cs.lastUpdateSeconds.getD 0) * (3 / 2)
  max (max base processingGuard) 1

/-- The update interval in force after `_check_alarm_conditions`: the
safe interval is applied only when no interval is set (or it is the
falsy zero timedelta) or it differs from the current one by more than
0.2 seconds. -/
def newUpdateInterval (cs : CoordIntervalState) (d : CycleData) : ℚ :=
  let safe := safeIntervalSeconds cs (determine_alarm_state d)
  match cs.updateInterval with
  | none => safe
  | some cur =>
    if cur = 0 then safe
    else if 1 / 5 < |cur - safe| then safe
    else cur

/-- Embedding of the `StateMachine` instance state (states are the
string constants the Python code assigns). -/
structure StateMachine where
  alarmState : String
  valveState : String
  lastAlarmTimestamp : Option ℚ
  lastValveChangeTimestamp : Option ℚ
deriving DecidableEq

/-- The state a fresh `StateMachine` starts in. -/
def initStateMachine : StateMachine :=
  { alarmState := "normal", valveState := "unknown"
    lastAlarmTimestamp := none, lastValveChangeTimestamp := none }

/-- Embedding of `StateMachine.update_alarm_state`: returns the
changed flag together with the updated state. -/
def update_alarm_state (sm : StateMachine) (alarmActive : Bool) (ts : ℚ) :
    Bool × StateMachine :=
  let newState := if alarmActive then "active" else "normal"
  if newState ≠ sm.alarmState then
    (true, { sm with alarmState := newState, lastAlarmTimestamp := some ts })
  else (false, sm)

/-- The raw-status normalization inside `StateMachine.update_valve_state`
(`None` reaches the same comparisons and falls to the unknown branch). -/
def valveNewState (valveStatus : Option ℚ) : String :=
  if valveStatus = some 3 then "open"
  else if valveStatus = some 2 then "closed"
  else if valveStatus = some 4 ∨ valveStatus = some 1087 then "disconnected"
  else "unknown"

/-- Embedding of `StateMachine.update_valve_state`. -/
def update_valve_state (sm : StateMachine) (valveStatus : Option ℚ) (ts : ℚ) :
    Bool × StateMachine :=
  let newState := valveNewState valveStatus
  if newState ≠ sm.valveState then
    (true, { sm with valveState := newState, lastValveChangeTimestamp := some ts })
  else (false, sm)

/-- Embedding of `StateMachine.should_force_valve_sync`. -/
def should_force_valve_sync (sm : StateMachine) : Bool :=
  decide (sm.alarmState = "normal")
    && (decide (sm.valveState = "unknown") || decide (sm.valveState = "disconnected"))

/-- Embedding of the state-machine portion of
`WaterguardDataUpdateCoordinator._update_state_machine`: the alarm
update from `_determine_alarm_state`, the valve update fed
`valve_data.get("valve_status1")` unconditionally, and the forced valve
resync (`_force_valve_sync`), whose fresh hub read is an oracle —
`none` when the read raised or returned nothing, `some st` when it
returned a dictionary whose `valve_status1` entry is `st`. -/
def update_state_machine (d : CycleData) (sm : StateMachine) (ts : ℚ)
    (syncRead : Option (Option ℚ)) : StateMachine :=
  let sm1 := (update_alarm_state sm (determine_alarm_state d) ts).2
  let sm2 := (update_valve_state sm1 d.valve.valve_status1 ts).2
  if should_force_valve_sync sm2 then
    match syncRead with
    | some st => (update_valve_state sm2 st ts).2
    | none => sm2
  else sm2

/-- Python dictionary assignment `d[k] = v` on an insertion-ordered
association list: replace in place when the key exists, append
otherwise. -/
def pyDictSet {κ α : Type} [BEq κ] (l : List (κ × α)) (k : κ) (v : α) :
    List (κ × α) :=
  if (l.lookup k).isSome then
    l.map fun p => if p.1 == k then (k, v) else p
  else l ++ [(k, v)]

/-- Embedding of `EntityCache.add_reading` for one entity key: the
per-key `OrderedDict` keyed by timestamp, then eviction from the oldest
end while the length exceeds the maximum. -/
def add_reading {α : Type} (maxEntries : ℕ) (cache : List (ℕ × α))
    (ts : ℕ) (v : α) : List (ℕ × α) :=
  let c2 := pyDictSet cache ts v
  if maxEntries < c2.length then c2.drop (c2.length - maxEntries) else c2

/-- A whole sequence of `add_reading` calls for one key, starting from
the empty cache. -/
def add_all {α : Type} (maxEntries : ℕ) (rs : List (ℕ × α)) : List (ℕ × α) :=
  rs.foldl (fun c r => add_reading maxEntries c r.1 r.2) []

/-- A discovered wireless sensor record, as stored by
`discover_wireless_sensors` (`discovery_time` is always the constant
string "startup"). -/
structure SensorInfo where
  value : ℚ
  objectType : ℕ
  instNumber : ℕ
  discoveryTime : String
  dataType : String
deriving DecidableEq

/-- The `sensor_type_mapping` table inside `discover_wireless_sensors`:
semantic key and expected range per instance number. -/
def sensorTypeMapping (i : ℕ) : String × Option (ℚ × ℚ) :=
  if i = 11 then ("leak1", some (0, 3 / 2))
  else if i = 12 then ("leak2", some (0, 3 / 2))
  else if i = 13 then ("temperature", some (-50, 100))
  else if i = 14 then ("humidity", some (0, 150))
  else if i = 15 then ("battery_voltage", some (0, 5))
  else ("unknown_" ++ toString i, none)

/-- The `expanded_ranges` lookup applied when an analog read falls back
to the general parser (`expanded_ranges.get(sensor_key, expected_range)`). -/
def expandedRange (key : String) (orig : Option (ℚ × ℚ)) : Option (ℚ × ℚ) :=
  if key = "leak1" then some (0, 2)
  else if key = "leak2" then some (0, 2)
  else if key = "temperature" then some (-50, 100)
  else if key = "humidity" then some (0, 150)
  else if key = "battery_voltage" then some (0, 5)
  else orig

/-- One iteration of the `discover_wireless_sensors` scan loop for the
object type and instance of the current candidate.  `specializedRes` is
the value the specialized wireless parser would produce for this
candidate's response and `generalRes` the value the general parser would
produce (both `none` when there was no response at all); both are oracle
parameters because they depend on the network. -/
def discoverStep (m : List (String × SensorInfo)) (objType instNumber : ℕ)
    (specializedRes generalRes : Option ℚ) : List (String × SensorInfo) :=
  let key := (sensorTypeMapping instNumber).1
  let origRange := (sensorTypeMapping instNumber).2
  if (m.lookup key).isSome then m
  else
    let value : Option ℚ :=
      if objType = 0 ∧ specializedRes.isSome then specializedRes else generalRes
    let range : Option (ℚ × ℚ) :=
      if objType = 0 ∧ ¬(objType = 0 ∧ specializedRes.isSome) then
        expandedRange key origRange
      else origRange
    match value with
    | none => m
    | some v =>
      if objType = 0 then
        match range with
        | some (lo, hi) =>
          if lo ≤ v ∧ v ≤ hi then
            pyDictSet m key
              { value := v, objectType := objType, instNumber := instNumber
                discoveryTime := "startup", dataType := "analog" }
          else m
        | none =>
          if 1 / 10 ≤ v ∧ v ≤ 200 then
            pyDictSet m key
              { value := v, objectType := objType, instNumber := instNumber
                discoveryTime := "startup", dataType := "analog" }
          else m
      else if objType = 13 then
        let existing := m.lookup key
        if existing = none ∨ (∃ e, existing = some e ∧ e.dataType ≠ "analog") then
          match range with
          | some (lo, hi) =>
            if lo ≤ v ∧ v ≤ hi then
              if v ≠ 1 ∨ key.startsWith "leak" then
                if existing = none then
                  pyDictSet m key
                    { value := v, objectType := objType, instNumber := instNumber
                      discoveryTime := "startup", dataType := "status" }
                else m
              else m
            else m
          | none => m
        else m
      else m

/-- One scan candidate of the discovery loop together with its two
oracle parse results. -/
structure ScanItem where
  objType : ℕ
  instNumber : ℕ
  specializedRes : Option ℚ
  generalRes : Option ℚ

/-- A whole discovery scan: the fold of `discoverStep` over a list of
candidates, starting from any current map. -/
def discoverScan (m : List (String × SensorInfo)) (items : List ScanItem) :
    List (String × SensorInfo) :=
  items.foldl (fun acc it => discoverStep acc it.objType it.instNumber it.specializedRes it.generalRes) m

/-- The concrete candidate order of `discover_wireless_sensors`: analog
inputs (type 0) over instances 11-15 first, then multi-state inputs
(type 13) over the same instances. -/
def discoveryScanPairs : List (ℕ × ℕ) :=
  [(0, 11), (0, 12), (0, 13), (0, 14), (0, 15),
   (13, 11), (13, 12), (13, 13), (13, 14), (13, 15)]

/-- Embedding of `WaterguardLinkboxHub.discover_wireless_sensors`, with
the two parser outcomes per candidate supplied as oracle functions of
object type and instance. -/
def discover_wireless_sensors (specialized general : ℕ → ℕ → Option ℚ) :
    List (String × SensorInfo) :=
  discoverScan []
    (discoveryScanPairs.map fun p =>
      { objType := p.1, instNumber := p.2
        specializedRes := if p.1 = 0 then specialized p.1 p.2 else none
        generalRes := general p.1 p.2 })

/-! ### Helper lemmas about the state machine -/

/-- The alarm update never touches the valve state. -/
lemma update_alarm_state_valveState (sm : StateMachine) (b : Bool) (ts : ℚ) :
    (update_alarm_state sm b ts).2.valveState = sm.valveState := by
  by_cases h : (if b then "active" else "normal") ≠ sm.alarmState <;>
    simp [update_alarm_state, h]

/-- The valve update always leaves the normalized state in place. -/
lemma update_valve_state_valveState (sm : StateMachine) (x : Option ℚ) (ts : ℚ) :
    (update_valve_state sm x ts).2.valveState = valveNewState x := by
  by_cases h : valveNewState x ≠ sm.valveState
  · simp [update_valve_state, h]
  · simp only [ne_eq, not_not] at h
    simp [update_valve_state, h]

/-- The alarm update always leaves the normalized alarm state in place. -/
lemma update_alarm_state_alarmState (sm : StateMachine) (b : Bool) (ts : ℚ) :
    (update_alarm_state sm b ts).2.alarmState = (if b then "active" else "normal") := by
  by_cases h : (if b then "active" else "normal") ≠ sm.alarmState
  · simp [update_alarm_state, h]
  · simp only [ne_eq, not_not] at h
    simp [update_alarm_state, ← h]

/-- The alarm update reports no change when the stored state already
equals the normalized new state. -/
lemma update_alarm_state_fst_false {sm : StateMachine} {b : Bool} {ts : ℚ}
    (h : sm.alarmState = if b then "active" else "normal") :
    (update_alarm_state sm b ts).1 = false := by
  simp [update_alarm_state, h]

/-- The valve update reports no change when the stored state already
equals the normalized new state. -/
lemma update_valve_state_fst_false {sm : StateMachine} {x : Option ℚ} {ts : ℚ}
    (h : sm.valveState = valveNewState x) :
    (update_valve_state sm x ts).1 = false := by
  simp [update_valve_state, h]

/-- The valve update reports a change exactly when the normalized new
state differs from the stored one. -/
lemma update_valve_state_fst_iff (sm : StateMachine) (x : Option ℚ) (ts : ℚ) :
    (update_valve_state sm x ts).1 = true ↔ valveNewState x ≠ sm.valveState := by
  by_cases h : valveNewState x ≠ sm.valveState <;> simp [update_valve_state, h]

/-- The alarm update reports a change exactly when the normalized new
state differs from the stored one. -/
lemma update_alarm_state_fst_iff (sm : StateMachine) (b : Bool) (ts : ℚ) :
    (update_alarm_state sm b ts).1 = true ↔ (if b then "active" else "normal") ≠ sm.alarmState := by
  by_cases h : (if b then "active" else "normal") ≠ sm.alarmState <;>
    simp [update_alarm_state, h]

/-! ### Claim theorems -/

/-- C1 (code bug evidence): with the hub reporting the raw disconnected
valve count 319 and every other reading absent, the refresh cycle's
alarm evaluation stays inactive — the hub remap and the coordinator
remap have already turned 319 into 0, so the `num_valves == 319` branch
of `_determine_alarm_state` can never fire during a cycle, contrary to
the claim that the disconnected code raises the alarm. -/
theorem C1_alarm_eval_at_disconnected_system :
    refreshCycleAlarm { alarm := none, leak1 := none } (some 319) none none none [] = false
      ∧ (coordRemapValve (read_valve_status (some 319) none none none)).num_valves = some 0 := by
  exact ⟨rfl, rfl⟩

/-- C2 (code bug evidence): a raw valve count of 3 is remapped by the
hub layer to 2 and then remapped again by the coordinator to 1, so the
cycle data carries `num_valves = 1` although the single documented remap
sends 3 to 2. -/
theorem C2_double_remap_eval :
    (coordRemapValve (read_valve_status (some 3) none none none)).num_valves = some 1
      ∧ hubInterpretNumValves 3 = 2 := by
  exact ⟨rfl, rfl⟩

/-- C9: battery percentage is 100 at or above 3.3 V, 15 at or below
2.2 V, and the linear interpolation rounded to the nearest integer
strictly in between; 2.2 V gives 15, 3.3 V gives 100, and 2.75 V sits at
the exact midpoint 57.5, which rounds to 58. -/
theorem C9_battery_percentage : ∀ v : ℚ,
    (33 / 10 ≤ v → calculate_battery_percentage v = 100)
      ∧ (v ≤ 11 / 5 → calculate_battery_percentage v = 15)
      ∧ (11 / 5 < v → v < 33 / 10 →
          calculate_battery_percentage v = pyRound (15 + ((v - 11 / 5) / (11 / 10)) * 85))
      ∧ calculate_battery_percentage (11 / 5) = 15
      ∧ calculate_battery_percentage (33 / 10) = 100
      ∧ calculate_battery_percentage (11 / 4) = 58
      ∧ (15 + (((11 / 4 : ℚ) - 11 / 5) / (11 / 10)) * 85 = 115 / 2) := by
  intro v
  have hmid : calculate_battery_percentage (11 / 4) = 58 := by
    have hfl : ⌊(115 / 2 : ℚ)⌋ = 57 := by
      rw [Int.floor_eq_iff]
      constructor <;> norm_num
    have harg : (15 : ℚ) + ((11 / 4 - 11 / 5) / (33 / 10 - 11 / 5)) * 85 = 115 / 2 := by
      norm_num
    unfold calculate_battery_percentage pyRound
    rw [if_neg (by norm_num), if_neg (by norm_num), harg, hfl]
    norm_num
  refine ⟨?_, ?_, ?_, ?_, ?_, hmid, by norm_num⟩
  · intro h
    unfold calculate_battery_percentage
    rw [if_pos h]
  · intro h
    unfold calculate_battery_percentage
    rw [if_neg (by linarith), if_pos h]
  · intro h1 h2
    unfold calculate_battery_percentage
    rw [if_neg (by linarith), if_neg (by linarith)]
    norm_num
  · unfold calculate_battery_percentage
    rw [if_neg (by norm_num), if_pos (by norm_num)]
  · unfold calculate_battery_percentage
    rw [if_pos (by norm_num)]

/-- Witness for C9 at concrete voltages in each branch. -/
theorem C9_battery_percentage_witness :
    calculate_battery_percentage 4 = 100
      ∧ calculate_battery_percentage 2 = 15
      ∧ calculate_battery_percentage (5 / 2) =
          pyRound (15 + (((5 / 2 : ℚ) - 11 / 5) / (11 / 10)) * 85) :=
  ⟨(C9_battery_percentage 4).1 (by norm_num),
   (C9_battery_percentage 2).2.1 (by norm_num),
   (C9_battery_percentage (5 / 2)).2.2.1 (by norm_num) (by norm_num)⟩

/-- C7: both state-machine updates return true exactly when the
normalized new state differs from the stored one, a repeated identical
input returns false after the first call, and the valve normalization
maps 3 to open, 2 to closed, 4 and 1087 to disconnected and anything
else to unknown. -/
theorem C7_state_machine_change_detection :
    ∀ (sm : StateMachine) (b : Bool) (x : Option ℚ) (ts ts2 : ℚ),
      ((update_alarm_state sm b ts).1 = true ↔ (if b then "active" else "normal") ≠ sm.alarmState)
        ∧ ((update_valve_state sm x ts).1 = true ↔ valveNewState x ≠ sm.valveState)
        ∧ (update_alarm_state (update_alarm_state sm b ts).2 b ts2).1 = false
        ∧ (update_valve_state (update_valve_state sm x ts).2 x ts2).1 = false
        ∧ valveNewState (some 3) = "open"
        ∧ valveNewState (some 2) = "closed"
        ∧ valveNewState (some 4) = "disconnected"
        ∧ valveNewState (some 1087) = "disconnected"
        ∧ valveNewState none = "unknown"
        ∧ (∀ q : ℚ, q ≠ 3 → q ≠ 2 → q ≠ 4 → q ≠ 1087 → valveNewState (some q) = "unknown") := by
  intro sm b x ts ts2
  refine ⟨?_, ?_, ?_, ?_, by decide, by decide, by decide, by decide, by decide, ?_⟩
  · exact update_alarm_state_fst_iff sm b ts
  · exact update_valve_state_fst_iff sm x ts
  · exact update_alarm_state_fst_false (update_alarm_state_alarmState sm b ts)
  · exact update_valve_state_fst_false (update_valve_state_valveState sm x ts)
  · intro q h3 h2 h4 h1087
    simp [valveNewState, h3, h2, h4, h1087]

/-- Witness for C7 at a concrete state and inputs. -/
theorem C7_state_machine_change_detection_witness :
    ((update_alarm_state initStateMachine true 0).1 = true ↔
        (if true then "active" else "normal") ≠ initStateMachine.alarmState)
      ∧ valveNewState (some 5) = "unknown" :=
  ⟨(C7_state_machine_change_detection initStateMachine true (some 5) 0 1).1,
   (C7_state_machine_change_detection initStateMachine true (some 5) 0 1).2.2.2.2.2.2.2.2.2
     5 (by norm_num) (by norm_num) (by norm_num) (by norm_num)⟩

/-- C10: `update_valve_state` is total over the `None` raw status that
reaches it when a valve read yields no response — it normalizes the
state to unknown and keeps the change-detection contract — and the
coordinator's `_update_state_machine` feeds `valve_status1` to it
unconditionally, so with `valve_status1 = None` in the cycle data (and a
forced-resync read that fails or also returns `None`) the machine ends
in the unknown valve state. -/
theorem C10_valve_none_total :
    ∀ (sm : StateMachine) (ts : ℚ) (d : CycleData),
      (update_valve_state sm none ts).2.valveState = "unknown"
        ∧ ((update_valve_state sm none ts).1 = true ↔ sm.valveState ≠ "unknown")
        ∧ (d.valve.valve_status1 = none →
            (update_state_machine d sm ts none).valveState = "unknown"
              ∧ (update_state_machine d sm ts (some none)).valveState = "unknown") := by
  intro sm ts d
  have hnorm : valveNewState none = "unknown" := by decide
  refine ⟨?_, ?_, ?_⟩
  · rw [update_valve_state_valveState, hnorm]
  · rw [update_valve_state_fst_iff sm none ts, hnorm]
    exact ne_comm
  · intro hnone
    have h2 : (update_valve_state (update_alarm_state sm (determine_alarm_state d) ts).2
        d.valve.valve_status1 ts).2.valveState = "unknown" := by
      rw [update_valve_state_valveState, hnone, hnorm]
    constructor
    · unfold update_state_machine
      by_cases hf : should_force_valve_sync
          (update_valve_state (update_alarm_state sm (determine_alarm_state d) ts).2
            d.valve.valve_status1 ts).2 = true
      · simp only [hf, if_true]
        exact h2
      · simp only [hf]
        simp only [Bool.false_eq_true, if_false]
        exact h2
    · unfold update_state_machine
      by_cases hf : should_force_valve_sync
          (update_valve_state (update_alarm_state sm (determine_alarm_state d) ts).2
            d.valve.valve_status1 ts).2 = true
      · simp only [hf, if_true]
        rw [update_valve_state_valveState, hnorm]
      · simp only [hf]
        simp only [Bool.false_eq_true, if_false]
        exact h2

/-- Witness for C10 at a concrete state machine and cycle data. -/
theorem C10_valve_none_total_witness :
    (update_state_machine
        { water := { alarm := none, leak1 := none }
          valve := { num_valves := none, control := none
                     valve_status1 := none, valve_status2 := none }
          wireless := [] }
        initStateMachine 0 none).valveState = "unknown" :=
  ((C10_valve_none_total initStateMachine 0
      { water := { alarm := none, leak1 := none }
        valve := { num_valves := none, control := none
                   valve_status1 := none, valve_status2 := none }
        wireless := [] }).2.2 rfl).1

/-- Cycle data with every reading absent, on which the alarm
evaluation is inactive. -/
def emptyCycleData : CycleData :=
  { water := { alarm := none, leak1 := none }
    valve := { num_valves := none, control := none
               valve_status1 := none, valve_status2 := none }
    wireless := [] }

/-- Coordinator state used by the C3 counterexample: scan interval 2 s,
last cycle duration 1.4 s, current update interval 2 s. -/
def c3State : CoordIntervalState :=
  { scanInterval := 2, fastPollInterval := 1
    lastUpdateSeconds := some (7 / 5), updateInterval := some 2 }

/-- C3 counterexample: with base interval 2 s and a last cycle duration
of 1.4 s the safe maximum is 2.1 s, yet the 0.2 s hysteresis keeps the
current 2 s interval, which is strictly below the claimed lower bound
max(base, 1.5 x duration, 1 s). -/
theorem C3_counterexample :
    safeIntervalSeconds c3State (determine_alarm_state emptyCycleData) = 21 / 10
      ∧ newUpdateInterval c3State emptyCycleData = 2
      ∧ ¬(21 / 10 : ℚ) ≤ 2 := by
  have hda : determine_alarm_state emptyCycleData = false := rfl
  have hsafe : safeIntervalSeconds c3State (determine_alarm_state emptyCycleData) = 21 / 10 := by
    rw [hda]
    show max (max 2 ((7 / 5 : ℚ) * (3 / 2))) 1 = 21 / 10
    rw [show ((7 / 5 : ℚ) * (3 / 2)) = 21 / 10 by norm_num]
    rw [max_eq_right (by norm_num : (2 : ℚ) ≤ 21 / 10)]
    rw [max_eq_left (by norm_num : (1 : ℚ) ≤ 21 / 10)]
  refine ⟨hsafe, ?_, by norm_num⟩
  have hred : newUpdateInterval c3State emptyCycleData
      = (if (2 : ℚ) = 0 then safeIntervalSeconds c3State (determine_alarm_state emptyCycleData)
         else if 1 / 5 < |(2 : ℚ) - safeIntervalSeconds c3State (determine_alarm_state emptyCycleData)|
         then safeIntervalSeconds c3State (determine_alarm_state emptyCycleData)
         else 2) := rfl
  rw [hred, hsafe, if_neg (by norm_num), if_neg ?_]
  rw [show (2 : ℚ) - 21 / 10 = -(1 / 10) by norm_num, abs_neg,
    abs_of_nonneg (by norm_num : (0 : ℚ) ≤ 1 / 10)]
  norm_num

/-- C3 (amended): the interval in force after the interval-selection
step is at least max(base, 1.5 x last duration, 1 s) minus the 0.2 s
hysteresis margin; it equals that maximum exactly whenever no interval
was in force or the difference exceeds 0.2 s. -/
theorem C3_amended_interval :
    ∀ (cs : CoordIntervalState) (d : CycleData),
      safeIntervalSeconds cs (determine_alarm_state d) - 1 / 5 ≤ newUpdateInterval cs d
        ∧ (cs.updateInterval = none →
            newUpdateInterval cs d = safeIntervalSeconds cs (determine_alarm_state d))
        ∧ (∀ cur : ℚ, cs.updateInterval = some cur →
            1 / 5 < |cur - safeIntervalSeconds cs (determine_alarm_state d)| →
            newUpdateInterval cs d = safeIntervalSeconds cs (determine_alarm_state d)) := by
  intro cs d
  obtain ⟨si, fp, lu, ui⟩ := cs
  cases ui with
  | none =>
    refine ⟨?_, fun _ => rfl, fun cur hcur => nomatch hcur⟩
    have hr : newUpdateInterval ⟨si, fp, lu, none⟩ d
        = safeIntervalSeconds ⟨si, fp, lu, none⟩ (determine_alarm_state d) := rfl
    rw [hr]
    linarith
  | some cur =>
    have hred : newUpdateInterval ⟨si, fp, lu, some cur⟩ d
        = (if cur = 0 then safeIntervalSeconds ⟨si, fp, lu, some cur⟩ (determine_alarm_state d)
           else if 1 / 5 < |cur - safeIntervalSeconds ⟨si, fp, lu, some cur⟩ (determine_alarm_state d)|
           then safeIntervalSeconds ⟨si, fp, lu, some cur⟩ (determine_alarm_state d)
           else cur) := rfl
    refine ⟨?_, ?_, ?_⟩
    · by_cases h0 : cur = 0
      · rw [hred, if_pos h0]
        linarith
      · by_cases hd : 1 / 5 < |cur - safeIntervalSeconds ⟨si, fp, lu, some cur⟩ (determine_alarm_state d)|
        · rw [hred, if_neg h0, if_pos hd]
          linarith
        · have hle := abs_le.mp (le_of_not_lt hd)
          rw [hred, if_neg h0, if_neg hd]
          linarith [hle.1]
    · intro h
      exact absurd h (by simp)
    · intro c hc hgt
      have hcc : cur = c := by injection hc
      subst hcc
      by_cases h0 : cur = 0
      · rw [hred, if_pos h0]
      · rw [hred, if_neg h0, if_pos hgt]

/-- Witness for C3 (amended) at concrete coordinator states: one with
no interval in force, one whose current interval differs from the safe
maximum by more than 0.2 s. -/
theorem C3_amended_interval_witness :
    newUpdateInterval
        { scanInterval := 2, fastPollInterval := 1
          lastUpdateSeconds := none, updateInterval := none } emptyCycleData
      = safeIntervalSeconds
          { scanInterval := 2, fastPollInterval := 1
            lastUpdateSeconds := none, updateInterval := none }
          (determine_alarm_state emptyCycleData)
      ∧ newUpdateInterval
          { scanInterval := 1, fastPollInterval := 1
            lastUpdateSeconds := none, updateInterval := some 10 } emptyCycleData
        = safeIntervalSeconds
            { scanInterval := 1, fastPollInterval := 1
              lastUpdateSeconds := none, updateInterval := some 10 }
            (determine_alarm_state emptyCycleData) := by
  constructor
  · exact (C3_amended_interval _ emptyCycleData).2.1 rfl
  · refine (C3_amended_interval _ emptyCycleData).2.2 10 rfl ?_
    have hda : determine_alarm_state emptyCycleData = false := rfl
    rw [hda]
    show (1 : ℚ) / 5 < |10 - max (max 1 ((0 : ℚ) * (3 / 2))) 1|
    rw [show ((0 : ℚ) * (3 / 2)) = 0 by norm_num]
    rw [max_eq_left (by norm_num : (0 : ℚ) ≤ 1), max_eq_left (by norm_num : (1 : ℚ) ≤ 1)]
    rw [show (10 : ℚ) - 1 = 9 by norm_num, abs_of_nonneg (by norm_num : (0 : ℚ) ≤ 9)]
    norm_num

/-- The 1024-byte truncation in `_parse_value` does not change byte 3. -/
lemma getD_three_truncate (data : List ℕ) :
    ((if 1024 < data.length then data.take 1024 else data).getD 3 0) = data.getD 3 0 := by
  by_cases h : 1024 < data.length
  · simp only [h, if_true]
    simp [List.getD_eq_getElem?_getD, List.getElem?_take, show (3 : ℕ) < 1024 by norm_num]
  · simp [h]

/-- C5 (amended): `_parse_value` rejects frames under 4 bytes, and when
the error bit (byte 3 bit 1) is set it fails unless byte 3 is exactly
0x17 — the water-sensor exception tests only that byte, not the full
23-byte water-sensor shape. -/
theorem C5_amended_error_bit :
    ∀ (data : List ℕ) (ot : Option ℤ) (er : Option (ℚ × ℚ)) (sk : String),
      (data.length < 4 → parse_value data ot er sk = none)
        ∧ ((data.getD 3 0) &&& 2 ≠ 0 → data.getD 3 0 ≠ 0x17 →
            parse_value data ot er sk = none) := by
  intro data ot er sk
  constructor
  · intro h
    simp only [parse_value, h, if_true]
  · intro hbit h17
    simp only [parse_value, getD_three_truncate]
    by_cases hlen : data.length < 4
    · rw [if_pos hlen]
    · rw [if_neg hlen, if_pos ⟨hbit, h17⟩]

/-- Witness for C5 (amended): a 3-byte frame is rejected, and a frame
with the error bit set and byte 3 not 0x17 is rejected. -/
theorem C5_amended_error_bit_witness :
    parse_value [1, 2, 3] none none "x" = none
      ∧ parse_value [0x81, 0x0a, 0x00, 0x02, 0x91, 0x05] none none "x" = none :=
  ⟨(C5_amended_error_bit [1, 2, 3] none none "x").1 (by decide),
   (C5_amended_error_bit [0x81, 0x0a, 0x00, 0x02, 0x91, 0x05] none none "x").2
     (by decide) (by decide)⟩

/-- C5 counterexample: this 6-byte frame has the error bit set (byte 3
is 0x17, whose bit 1 is set) and is not the 23-byte water-sensor shape,
yet `_parse_value` continues decoding and returns 5 from the enumerated
tag `91 05`, where the claim demands decode failure. -/
theorem C5_counterexample :
    parse_value [0x81, 0x0a, 0x00, 0x17, 0x91, 0x05] none none "x" = some 5
      ∧ isWaterSensorShape [0x81, 0x0a, 0x00, 0x17, 0x91, 0x05] = false
      ∧ ((0x17 : ℕ) &&& 2 ≠ 0) := by
  refine ⟨?_, by decide, by decide⟩
  rfl

/-- The per-key wireless validation exactly as claim C4 words it,
applied to the float decoded at the fixed offset bytes 18-22 (the
claim side of the comparison). -/
def claimWirelessDecode (f : F32) (key : String) : Option ℚ :=
  match f with
  | F32.nan => none
  | F32.inf _ => none
  | F32.val v =>
    if key = "leak1" ∨ key = "leak2" then
      if v = 1 then some 1
      else if v = 0 then some 0
      else some 0
    else if key = "temperature" then
      if -50 ≤ v ∧ v ≤ 100 then some v else none
    else if key = "humidity" then
      if 0 ≤ v ∧ v ≤ 150 then some v else none
    else if key = "battery_voltage" then
      if 3 / 2 ≤ v ∧ v ≤ 4 then some v else none
    else none

/-- C4 (amended): for every frame matching the wireless-format
signature that is not also the 23-byte water-sensor shape, the decoder
extracts the big-endian IEEE-754 float at bytes 18-22 and applies
exactly the per-key validation of the claim for the five wireless
sensor keys. -/
theorem C4_amended_wireless_decode :
    ∀ (data : List ℕ) (key : String),
      is_wireless_sensor_response data (some 0) = true →
      isWaterSensorShape data = false →
      (key = "leak1" ∨ key = "leak2" ∨ key = "temperature"
        ∨ key = "humidity" ∨ key = "battery_voltage") →
      parse_wireless_sensor_response data key
        = claimWirelessDecode
            (decodeFloat32 (data.getD 18 0) (data.getD 19 0) (data.getD 20 0) (data.getD 21 0))
            key := by
  intro data key hsig hwater hkey
  have hparts : (22 ≤ data.length) ∧ (data.drop 16).take 2 = [0x3e, 0x44] := by
    simp only [is_wireless_sensor_response, Bool.and_eq_true, decide_eq_true_eq] at hsig
    exact ⟨hsig.1.1.2, hsig.2⟩
  unfold parse_wireless_sensor_response
  rw [hwater]
  simp only [Bool.false_eq_true, if_false]
  rw [if_neg (by omega : ¬data.length < 22), if_neg (not_not_intro hparts.2)]
  rcases hdc : decodeFloat32 (data.getD 18 0) (data.getD 19 0) (data.getD 20 0) (data.getD 21 0)
    with _ | b | v
  · rfl
  · rfl
  · rcases hkey with h | h | h | h | h <;> subst h <;> simp [claimWirelessDecode]

/-- The 23-byte frame used as the C4 counterexample: it carries both
the wireless signature and the water-sensor shape, with float bytes
`3f 00 00 00` (0.5) at offset 18 and water value byte 0x00 at offset 19. -/
def c4Frame : List ℕ :=
  [0x81, 0x0a, 0x00, 0x17, 0x01, 0x00, 0x30, 0x01,
   0, 0, 0, 0, 0, 0, 0, 0, 0x3e, 0x44, 0x3f, 0x00, 0, 0, 0]

/-- C4 counterexample: this frame matches the wireless-format signature
and its float at bytes 18-22 decodes to 0.5, in range for temperature,
so the claim demands 0.5 — but the decoder takes the water-sensor branch
first and returns 0. -/
theorem C4_counterexample :
    is_wireless_sensor_response c4Frame (some 0) = true
      ∧ decodeFloat32 (c4Frame.getD 18 0) (c4Frame.getD 19 0)
          (c4Frame.getD 20 0) (c4Frame.getD 21 0) = F32.val (1 / 2)
      ∧ claimWirelessDecode (F32.val (1 / 2)) "temperature" = some (1 / 2)
      ∧ parse_wireless_sensor_response c4Frame "temperature" = some 0
      ∧ ¬(some (0 : ℚ) = some (1 / 2 : ℚ)) := by
  have h18 : c4Frame.getD 18 0 = 0x3f := rfl
  have h19 : c4Frame.getD 19 0 = 0x00 := rfl
  have h20 : c4Frame.getD 20 0 = 0x00 := rfl
  have h21 : c4Frame.getD 21 0 = 0x00 := rfl
  have hdec : decodeFloat32 0x3f 0x00 0x00 0x00 = F32.val (1 / 2) := by
    unfold decodeFloat32
    norm_num
  refine ⟨rfl, ?_, ?_, rfl, by norm_num⟩
  · rw [h18, h19, h20, h21, hdec]
  · unfold claimWirelessDecode
    norm_num
    exact ⟨by decide, by decide⟩

/-- A 22-byte wireless frame (not the water-sensor shape) whose float
bytes `3f 80 00 00` encode 1.0, used as the C4 witness. -/
def c4WitnessFrame : List ℕ :=
  [0x81, 0x0a, 0x00, 0x17, 0, 0, 0, 0, 0, 0, 0, 0, 0, 0, 0, 0,
   0x3e, 0x44, 0x3f, 0x80, 0x00, 0x00]

/-- Witness for C4 (amended): on the concrete 22-byte leak frame the
decoder agrees with the claim-side validation and yields 1.0 (wet). -/
theorem C4_amended_wireless_decode_witness :
    parse_wireless_sensor_response c4WitnessFrame "leak1"
        = claimWirelessDecode
            (decodeFloat32 (c4WitnessFrame.getD 18 0) (c4WitnessFrame.getD 19 0)
              (c4WitnessFrame.getD 20 0) (c4WitnessFrame.getD 21 0)) "leak1"
      ∧ claimWirelessDecode
          (decodeFloat32 (c4WitnessFrame.getD 18 0) (c4WitnessFrame.getD 19 0)
            (c4WitnessFrame.getD 20 0) (c4WitnessFrame.getD 21 0)) "leak1" = some 1 := by
  refine ⟨C4_amended_wireless_decode c4WitnessFrame "leak1" (by decide) (by decide) (Or.inl rfl), ?_⟩
  have h18 : c4WitnessFrame.getD 18 0 = 0x3f := rfl
  have h19 : c4WitnessFrame.getD 19 0 = 0x80 := rfl
  have h20 : c4WitnessFrame.getD 20 0 = 0x00 := rfl
  have h21 : c4WitnessFrame.getD 21 0 = 0x00 := rfl
  have hdec : decodeFloat32 0x3f 0x80 0x00 0x00 = F32.val 1 := by
    unfold decodeFloat32
    norm_num
  rw [h18, h19, h20, h21, hdec]
  unfold claimWirelessDecode
  norm_num

/-! ### Helper lemmas about the entity cache -/

/-- The suffix consisting of the last `n` elements of a list. -/
def lastN {α : Type} (n : ℕ) (l : List α) : List α := l.drop (l.length - n)

/-- A key absent from the key column is not found by `lookup`. -/
lemma lookup_of_not_mem_keys {κ α : Type} [BEq κ] [LawfulBEq κ]
    {l : List (κ × α)} {k : κ} (h : ¬ k ∈ l.map Prod.fst) : l.lookup k = none := by
  induction l with
  | nil => rfl
  | cons p t ih =>
    obtain ⟨a, b⟩ := p
    simp only [List.map_cons, List.mem_cons, not_or] at h
    rw [List.lookup_cons]
    have hne : (k == a) = false := beq_eq_false_iff_ne.mpr h.1
    rw [hne]
    exact ih h.2

/-- Dictionary assignment at an absent key appends the pair. -/
lemma pyDictSet_fresh {κ α : Type} [BEq κ] (l : List (κ × α)) (k : κ) (v : α)
    (h : l.lookup k = none) : pyDictSet l k v = l ++ [(k, v)] := by
  simp [pyDictSet, h]

/-- Adding a reading with a fresh timestamp keeps exactly the last
`maxEntries` entries of the appended list. -/
lemma add_reading_fresh {α : Type} (maxEntries : ℕ) (c : List (ℕ × α)) (ts : ℕ) (v : α)
    (h : c.lookup ts = none) :
    add_reading maxEntries c ts v = lastN maxEntries (c ++ [(ts, v)]) := by
  simp only [add_reading, pyDictSet_fresh c ts v h, lastN]
  by_cases hlen : maxEntries < (c ++ [(ts, v)]).length
  · rw [if_pos hlen]
  · rw [if_neg hlen]
    have h0 : (c ++ [(ts, v)]).length - maxEntries = 0 := by
      simp only [List.length_append, List.length_cons, List.length_nil] at hlen ⊢
      omega
    rw [h0, List.drop_zero]

/-- Taking the last `n` elements before appending more gives the same
last-`n` suffix as appending directly. -/
lemma lastN_append_absorb {α : Type} (n : ℕ) (l m : List α) :
    lastN n (lastN n l ++ m) = lastN n (l ++ m) := by
  rcases le_or_lt n l.length with hnl | hnl
  · unfold lastN
    have hdlen : (l.drop (l.length - n)).length = n := by
      rw [List.length_drop]
      omega
    rw [List.length_append, List.length_append, hdlen,
      List.drop_append_eq_append_drop, List.drop_append_eq_append_drop,
      List.drop_drop]
    congr 1
    · congr 1
      omega
    · congr 1
      omega
  · have h0 : l.length - n = 0 := by omega
    unfold lastN
    rw [h0, List.drop_zero]

/-- The last-`n` suffix never exceeds `n` elements. -/
lemma lastN_length_le {α : Type} (n : ℕ) (l : List α) : (lastN n l).length ≤ n := by
  unfold lastN
  rw [List.length_drop]
  omega

/-- Folding `add_reading` over readings with pairwise-distinct
timestamps, starting from the last-`n` suffix of already-processed
readings, yields the last-`n` suffix of the whole sequence. -/
lemma add_all_go {α : Type} (maxEntries : ℕ) :
    ∀ (rs p : List (ℕ × α)),
      ((p ++ rs).map Prod.fst).Nodup →
      rs.foldl (fun c r => add_reading maxEntries c r.1 r.2) (lastN maxEntries p)
        = lastN maxEntries (p ++ rs) := by
  intro rs
  induction rs with
  | nil =>
    intro p h
    simp
  | cons r t ih =>
    intro p h
    obtain ⟨ts, v⟩ := r
    have hfresh : (lastN maxEntries p).lookup ts = none := by
      apply lookup_of_not_mem_keys
      intro hmem
      have hts : ts ∈ p.map Prod.fst := by
        unfold lastN at hmem
        rw [List.map_drop] at hmem
        exact List.mem_of_mem_drop hmem
      rw [List.map_append] at h
      have hdisj := (List.nodup_append.mp h).2.2
      exact hdisj hts (by simp)
    rw [List.foldl_cons, add_reading_fresh _ _ _ _ hfresh, lastN_append_absorb]
    have hnodup2 : (((p ++ [(ts, v)]) ++ t).map Prod.fst).Nodup := by
      rw [List.append_assoc, List.singleton_append]
      exact h
    rw [ih (p ++ [(ts, v)]) hnodup2, List.append_assoc, List.singleton_append]

/-- With pairwise-distinct timestamps, a whole `add_reading` sequence
retains precisely the last `maxEntries` readings. -/
lemma add_all_eq_lastN {α : Type} (maxEntries : ℕ) (rs : List (ℕ × α))
    (h : (rs.map Prod.fst).Nodup) :
    add_all maxEntries rs = lastN maxEntries rs := by
  have hgo := add_all_go maxEntries rs [] (by simpa using h)
  simpa [add_all, lastN] using hgo

/-- Folding `add_reading` never exceeds `maxEntries` entries. -/
lemma foldl_add_reading_length_le {α : Type} (maxEntries : ℕ) :
    ∀ (rs c : List (ℕ × α)), c.length ≤ maxEntries →
      (rs.foldl (fun c r => add_reading maxEntries c r.1 r.2) c).length ≤ maxEntries := by
  intro rs
  induction rs with
  | nil =>
    intro c h
    simpa using h
  | cons r t ih =>
    intro c h
    rw [List.foldl_cons]
    apply ih
    simp only [add_reading]
    by_cases hlen : maxEntries < (pyDictSet c r.1 r.2).length
    · rw [if_pos hlen, List.length_drop]
      omega
    · rw [if_neg hlen]
      omega

/-- The reading sequence used by the C6 witness: three distinct
timestamps against a maximum of two retained entries. -/
def c6Readings : List (ℕ × ℤ) := [(0, 10), (1, 11), (2, 12)]

/-- Eleven readings that all carry the same timestamp, used by the C6
counterexample. -/
def c6DupReadings : List (ℕ × ℤ) := (List.range 11).map fun i => (0, (i : ℤ))

/-- C6 (amended): for readings with pairwise-distinct timestamps and a
configured maximum of at least one, inserting `maxEntries + k` readings
leaves exactly the newest `maxEntries` in arrival order (the oldest `k`
evicted), the cache is never left empty, and for any reading sequence at
all the cache never holds more than `maxEntries` entries. -/
theorem C6_amended_cache_eviction :
    ∀ (maxEntries k : ℕ) (rs rs2 : List (ℕ × ℤ)),
      1 ≤ maxEntries →
      (rs.map Prod.fst).Nodup →
      rs.length = maxEntries + k →
      add_all maxEntries rs = rs.drop k
        ∧ (add_all maxEntries rs).length = maxEntries
        ∧ add_all maxEntries rs ≠ []
        ∧ (add_all maxEntries rs2).length ≤ maxEntries := by
  intro maxEntries k rs rs2 hmax hnodup hlen
  have he := add_all_eq_lastN maxEntries rs hnodup
  have hdrop : rs.length - maxEntries = k := by omega
  refine ⟨?_, ?_, ?_, ?_⟩
  · rw [he]
    unfold lastN
    rw [hdrop]
  · rw [he]
    unfold lastN
    rw [List.length_drop]
    omega
  · rw [he]
    unfold lastN
    intro hempty
    have hlen2 := congrArg List.length hempty
    rw [List.length_drop, List.length_nil] at hlen2
    omega
  · exact foldl_add_reading_length_le maxEntries rs2 [] (by simp)

/-- Witness for C6 (amended) on three distinct-timestamp readings with
a maximum of two. -/
theorem C6_amended_cache_eviction_witness :
    add_all 2 c6Readings = c6Readings.drop 1
      ∧ (add_all 2 c6Readings).length = 2
      ∧ add_all 2 c6Readings ≠ []
      ∧ (add_all 2 c6Readings).length ≤ 2 := by
  exact C6_amended_cache_eviction 2 1 c6Readings c6Readings
    (by norm_num) (by decide) (by decide)

/-- C6 counterexample: eleven readings sharing one timestamp leave a
single cache entry, because the OrderedDict is keyed by timestamp and a
repeated timestamp replaces in place — the claim's promise that the
newest ten readings remain in arrival order fails. -/
theorem C6_counterexample :
    c6DupReadings.length = 10 + 1
      ∧ (add_all 10 c6DupReadings).length = 1
      ∧ add_all 10 c6DupReadings ≠ c6DupReadings.drop 1 := by
  refine ⟨by decide, by decide, by decide⟩

/-! ### Helper lemmas about the discovery map -/

/-- A found entry is still found after appending more bindings. -/
lemma lookup_append_some {κ α : Type} [BEq κ] {l : List (κ × α)} (l2 : List (κ × α))
    {k : κ} {e : α} (h : l.lookup k = some e) : (l ++ l2).lookup k = some e := by
  induction l with
  | nil => simp at h
  | cons p t ih =>
    obtain ⟨a, b⟩ := p
    rw [List.cons_append, List.lookup_cons]
    rw [List.lookup_cons] at h
    cases hka : (k == a)
    · rw [hka] at h
      exact ih h
    · rw [hka] at h
      exact h

/-- A discovery step never replaces an entry already recorded: every
insertion happens behind the already-present guard, at a key whose
lookup is still `none`. -/
lemma discoverStep_preserves {m : List (String × SensorInfo)} {k : String} {e : SensorInfo}
    (ot instN : ℕ) (sr gr : Option ℚ) (h : m.lookup k = some e) :
    (discoverStep m ot instN sr gr).lookup k = some e := by
  simp only [discoverStep]
  by_cases hk : (m.lookup (sensorTypeMapping instN).1).isSome = true
  · simp only [hk, if_true]
    exact h
  · have hk2 : m.lookup (sensorTypeMapping instN).1 = none := by
      cases hcase : m.lookup (sensorTypeMapping instN).1
      · rfl
      · rw [hcase] at hk
        simp at hk
    have hins : ∀ v : SensorInfo,
        (pyDictSet m (sensorTypeMapping instN).1 v).lookup k = some e := by
      intro v
      rw [pyDictSet_fresh _ _ _ hk2]
      exact lookup_append_some _ h
    rw [hk2]
    simp only [Option.isSome_none, Bool.false_eq_true, if_false]
    repeat' split
    all_goals first | exact h | exact hins _

/-- Entry preservation lifts to a whole discovery scan. -/
lemma discoverScan_preserves (items : List ScanItem) :
    ∀ (m : List (String × SensorInfo)) (k : String) (e : SensorInfo),
      m.lookup k = some e → (discoverScan m items).lookup k = some e := by
  induction items with
  | nil =>
    intro m k e h
    simpa [discoverScan] using h
  | cons it t ih =>
    intro m k e h
    simp only [discoverScan, List.foldl_cons]
    exact ih (discoverStep m it.objType it.instNumber it.specializedRes it.generalRes) k e
      (discoverStep_preserves it.objType it.instNumber it.specializedRes it.generalRes h)

/-- A discovery step that changes what a key maps to can only have
filled in a previously-absent key. -/
lemma discoverStep_change_fresh (m : List (String × SensorInfo)) (ot instN : ℕ)
    (sr gr : Option ℚ) (k : String)
    (hch : (discoverStep m ot instN sr gr).lookup k ≠ m.lookup k) :
    m.lookup k = none := by
  cases hcase : m.lookup k with
  | none => rfl
  | some e =>
    have hpres := discoverStep_preserves ot instN sr gr hcase
    rw [hpres, hcase] at hch
    exact absurd rfl hch

/-- C8: throughout a wireless discovery scan an entry once recorded is
never replaced — in particular a key recorded with analog data keeps
exactly that entry to the end of the scan, so no later status-type
result ever replaces it — and a step that stores anything at a key
(status results included) does so only when nothing was recorded for
that key yet. -/
theorem C8_discovery_precedence :
    (∀ (items : List ScanItem) (m : List (String × SensorInfo)) (k : String) (e : SensorInfo),
        m.lookup k = some e → (discoverScan m items).lookup k = some e)
      ∧ (∀ (m : List (String × SensorInfo)) (ot instN : ℕ) (sr gr : Option ℚ) (k : String),
          (discoverStep m ot instN sr gr).lookup k ≠ m.lookup k → m.lookup k = none) :=
  ⟨fun items _ _ _ h => discoverScan_preserves items _ _ _ h,
   fun m ot instN sr gr k hch => discoverStep_change_fresh m ot instN sr gr k hch⟩

/-- An analog temperature entry used by the C8 witness. -/
def c8AnalogInfo : SensorInfo :=
  { value := 20, objectType := 0, instNumber := 13
    discoveryTime := "startup", dataType := "analog" }

/-- Witness for C8: a recorded analog temperature entry survives a
later status-pass scan item for the same instance untouched, and a step
that does store a result does so at a previously-absent key. -/
theorem C8_discovery_precedence_witness :
    (discoverScan [("temperature", c8AnalogInfo)]
        [{ objType := 13, instNumber := 13, specializedRes := none, generalRes := some 1 }]).lookup
        "temperature" = some c8AnalogInfo
      ∧ ([] : List (String × SensorInfo)).lookup "temperature" = none :=
  ⟨C8_discovery_precedence.1
      [{ objType := 13, instNumber := 13, specializedRes := none, generalRes := some 1 }]
      [("temperature", c8AnalogInfo)] "temperature" c8AnalogInfo rfl,
   C8_discovery_precedence.2 [] 0 13 (some 20) none "temperature" (by decide)⟩
